import Mathlib

/-!
Verification of the palm-oil biomass calculator (src/biomass.py).

The core logic is embedded shallowly over exact rationals (`ℚ`):
an ordered ratio table is a `List (String × ℚ)` (Python dicts preserve
insertion order), and each arithmetic step of the source is mirrored by
a computable Lean definition.
-/

namespace Biomass

/-- Errors named by the specification's error taxonomy.  The Python source
raises `ZeroDivisionError` on a zero denominator; the other two labels come
from the spec and are used when stating what the code does or does not do. -/
inductive CalcError
  | divisionByZero
  | invalidInput
  | unknownComponent
deriving DecidableEq, Repr

/-- Constant DEFAULT_BIOMASS_RATIOS from src/biomass.py lines 7-14: the
ordered mapping of the six biomass components to their default ratios. -/
def DEFAULT_BIOMASS_RATIOS : List (String × ℚ) :=
  [("Empty Fruit Bunches (EFB)", 21/100),
   ("Palm Kernel Shell (PKS)", 55/1000),
   ("Mesocarp Fibre", 144/1000),
   ("Decanter Cake", 35/1000),
   ("Palm Oil Mill Effluent (POME)", 583/1000),
   ("Sludge Palm Oil (SPO)", 1/100)]

/-- Constant DEFAULT_FROND_MT_PER_HA = 14.47 from src/biomass.py line 17. -/
def DEFAULT_FROND_MT_PER_HA : ℚ := 1447/100

/-- Constant DEFAULT_TRUNK_MT_PER_HA = 74.48 from src/biomass.py line 18. -/
def DEFAULT_TRUNK_MT_PER_HA : ℚ := 7448/100

/-- Function calculate_biomass from src/biomass.py lines 20-31: the dict
comprehension mapping each entry (t, r) of biomass_ratios to (t, ffb_mt * r). -/
def calculate_biomass (ffb_mt : ℚ) (biomass_ratios : List (String × ℚ)) :
    List (String × ℚ) :=
  biomass_ratios.map (fun kv => (kv.1, ffb_mt * kv.2))

/-- The state-passing evaluation of the dict comprehension in
`calculate_biomass`: each iteration of `biomass_ratios.items()` reads one
`(biomass_type, ratio)` pair and appends `(biomass_type, ffb_mt * ratio)`
to the result under construction; the second component threads the state of
the `biomass_ratios` argument, which no iteration writes to. -/
def calculate_biomass_run (ffb_mt : ℚ) (biomass_ratios : List (String × ℚ)) :
    List (String × ℚ) × List (String × ℚ) :=
  biomass_ratios.foldl
    (fun st kv => (st.1 ++ [(kv.1, ffb_mt * kv.2)], st.2))
    ([], biomass_ratios)

/-- The value a Streamlit slider or numeric input with bounds
`[minv, maxv]` holds: the widget constrains it into the range, so any
requested value is clamped. -/
def st_widget_value (minv maxv req : ℚ) : ℚ := max minv (min maxv req)

/-- The value a Streamlit number_input with only a lower bound holds
(src/biomass.py line 166: the FFB input has min_value=0.0 and no upper
bound): requests below the bound are constrained up to it. -/
def st_number_input (minv req : ℚ) : ℚ := max minv req

/-- The custom-ratio construction of src/biomass.py lines 199-211: for each
`biomass_type` in `DEFAULT_BIOMASS_RATIOS`, a slider with
`min_value=0.0, max_value=100.0` initialised to `ratio * 100` yields
`custom_percentage`, and `custom_ratios[biomass_type] = custom_percentage / 100`.
`requested k = some p` means the user set the slider for `k` to `p`
(the widget clamps it into `[0, 100]`); `none` means the slider was left at
its default initial value. -/
def buildCustomRatios (requested : String → Option ℚ) : List (String × ℚ) :=
  DEFAULT_BIOMASS_RATIOS.map (fun kv =>
    (kv.1, st_widget_value 0 100 ((requested kv.1).getD (kv.2 * 100)) / 100))

/-- The area-yield computation of src/biomass.py lines 270-272:
`custom_frond_biomass = plantation_area_ha * custom_frond_mt_per_ha` and
`custom_trunk_biomass = plantation_area_ha * custom_trunk_mt_per_ha`. -/
def computeFromArea (area_ha frond_yield trunk_yield : ℚ) : ℚ × ℚ :=
  (area_ha * frond_yield, area_ha * trunk_yield)

/-- The percentage-difference computation of src/biomass.py lines 296-298:
`((custom - default) / default) * 100`, where Python raises
`ZeroDivisionError` when the denominator `default` is zero. -/
def percentDifference (custom dflt : ℚ) : Except CalcError ℚ :=
  if dflt = 0 then .error .divisionByZero
  else .ok ((custom - dflt) / dflt * 100)

/-- Helper: looking a key up in a table mapped by a key-preserving value
transformation yields the transformed value. -/
theorem lookup_map_value (g : String → ℚ → ℚ) (R : List (String × ℚ))
    (k : String) (r : ℚ) (h : R.lookup k = some r) :
    (R.map (fun kv => (kv.1, g kv.1 kv.2))).lookup k = some (g k r) := by
  induction R with
  | nil => simp [List.lookup] at h
  | cons a R ih =>
    simp only [List.map_cons, List.lookup] at h ⊢
    by_cases hk : k = a.1
    · simp [hk] at h ⊢
      simp [h]
    · have hk' : (k == a.1) = false := beq_false_of_ne hk
      simp only [hk'] at h ⊢
      exact ih h

/-- Helper: the keys of a table mapped by a key-preserving value
transformation are unchanged. -/
theorem keys_map_value (g : String → ℚ → ℚ) (R : List (String × ℚ)) :
    ((R.map (fun kv => (kv.1, g kv.1 kv.2))).map Prod.fst) = R.map Prod.fst := by
  induction R with
  | nil => rfl
  | cons a R ih => simp [ih]

/-- C1: `calculate_biomass` returns a mapping whose keys are exactly the
keys of the ratio table in the same order, and whose value at each
component present in the table is the input mass times that component's
ratio. -/
theorem C1_calculate_biomass_pointwise (m : ℚ) (R : List (String × ℚ))
    (k : String) (r : ℚ) (h : R.lookup k = some r) :
    ((calculate_biomass m R).map Prod.fst = R.map Prod.fst) ∧
    (calculate_biomass m R).lookup k = some (m * r) := by
  constructor
  · exact keys_map_value (fun _ v => m * v) R
  · exact lookup_map_value (fun _ v => m * v) R k r h

/-- Witness for C1 at mass 3 and the single-entry table `{X: 1/2}`. -/
theorem C1_calculate_biomass_pointwise_witness :
    (([("X", (1:ℚ)/2)] : List (String × ℚ)).lookup "X" = some (1/2)) ∧
    (((calculate_biomass 3 [("X", 1/2)]).map Prod.fst
        = ([("X", (1:ℚ)/2)] : List (String × ℚ)).map Prod.fst) ∧
      (calculate_biomass 3 [("X", 1/2)]).lookup "X" = some (3 * (1/2))) :=
  ⟨by simp [List.lookup],
   C1_calculate_biomass_pointwise 3 [("X", 1/2)] "X" (1/2) (by simp [List.lookup])⟩

/-- Helper: a value found by lookup is among the table's values. -/
theorem lookup_mem_values (R : List (String × ℚ)) (k : String) (r : ℚ)
    (h : R.lookup k = some r) : r ∈ R.map Prod.snd := by
  induction R with
  | nil => simp [List.lookup] at h
  | cons a R ih =>
    simp only [List.lookup] at h
    by_cases hk : k = a.1
    · simp [hk] at h
      simp [h]
    · have hk' : (k == a.1) = false := beq_false_of_ne hk
      simp only [hk'] at h
      simp [ih h]

/-- Helper: every entry of the default table has a positive ratio. -/
theorem default_ratio_pos (kv : String × ℚ) (h : kv ∈ DEFAULT_BIOMASS_RATIOS) :
    0 < kv.2 := by
  simp [DEFAULT_BIOMASS_RATIOS] at h
  rcases h with h | h | h | h | h | h <;> rw [h] <;> norm_num

/-- Helper: every ratio found in the default table lies in the unit
interval. -/
theorem default_ratio_bounds (k : String) (r : ℚ)
    (h : DEFAULT_BIOMASS_RATIOS.lookup k = some r) : 0 ≤ r ∧ r ≤ 1 := by
  have hv := lookup_mem_values _ _ _ h
  simp [DEFAULT_BIOMASS_RATIOS] at hv
  rcases hv with h' | h' | h' | h' | h' | h' <;> subst h' <;> norm_num

/-- C2: for the canonical default table the output sum at input 100 equals
100 times the sum of ratios; the six default ratios sum to 1.037 (the
claimed 1.027 omits the SPO component), so that sum is 103.7, not 102.7. -/
theorem C2_default_output_sum :
    ((calculate_biomass 100 DEFAULT_BIOMASS_RATIOS).map Prod.snd).sum
        = 100 * (DEFAULT_BIOMASS_RATIOS.map Prod.snd).sum ∧
    ((calculate_biomass 100 DEFAULT_BIOMASS_RATIOS).map Prod.snd).sum
        = 1037 / 10 := by
  constructor <;>
    norm_num [calculate_biomass, DEFAULT_BIOMASS_RATIOS]

/-- C2 counterexample: with the code's default table (which includes
Sludge Palm Oil at ratio 0.01) the output sum for input 100 is not 102.7. -/
theorem C2_default_output_sum_not_1027 :
    ((calculate_biomass 100 DEFAULT_BIOMASS_RATIOS).map Prod.snd).sum
      ≠ 1027 / 10 := by
  norm_num [calculate_biomass, DEFAULT_BIOMASS_RATIOS]

/-- C3: the percentage-difference computation returns
(custom - default) / default * 100 when the default baseline is nonzero,
fails with a division-by-zero error exactly when it is zero (Python raises
ZeroDivisionError rather than producing NaN or infinity), and yields 10 at
(110, 100). -/
theorem C3_percentDifference_spec (custom dflt : ℚ) :
    (dflt ≠ 0 →
        percentDifference custom dflt = .ok ((custom - dflt) / dflt * 100)) ∧
    (percentDifference custom dflt = .error .divisionByZero ↔ dflt = 0) ∧
    percentDifference 110 100 = .ok 10 := by
  refine ⟨fun h => by simp [percentDifference, h], ⟨?_, ?_⟩, ?_⟩
  · intro h
    by_cases hd : dflt = 0
    · exact hd
    · simp [percentDifference, hd] at h
  · intro h
    simp [percentDifference, h]
  · norm_num [percentDifference]

/-- Witness for C3 at custom = 110 and baseline 100. -/
theorem C3_percentDifference_spec_witness :
    percentDifference 110 100 = .ok ((110 - 100) / 100 * 100) :=
  (C3_percentDifference_spec 110 100).1 (by norm_num)

/-- C4 counterexample: calculate_biomass does not fail on a negative mass;
at mass -1 with the default table it returns the multiplied-through
mapping, e.g. quantity -0.21 for Empty Fruit Bunches. -/
theorem C4_negative_mass_counterexample :
    (calculate_biomass (-1) DEFAULT_BIOMASS_RATIOS).lookup
      "Empty Fruit Bunches (EFB)" = some (-(21 / 100)) := by
  norm_num [calculate_biomass, DEFAULT_BIOMASS_RATIOS, List.lookup]

/-- C4 amended: calculate_biomass performs no validation and multiplies a
negative mass through, yielding a strictly negative quantity for every
component of the default table; a negative mass is excluded only at the UI
layer, where the FFB number_input (min_value = 0) constrains it to 0. -/
theorem C4_negative_mass_multiplied_through (m : ℚ) (hm : m < 0) :
    (∀ p ∈ calculate_biomass m DEFAULT_BIOMASS_RATIOS, p.2 < 0) ∧
    st_number_input 0 m = 0 := by
  constructor
  · intro p hp
    simp only [calculate_biomass] at hp
    rcases List.mem_map.mp hp with ⟨kv, hkv, hpe⟩
    rw [← hpe]
    exact mul_neg_of_neg_of_pos hm (default_ratio_pos kv hkv)
  · simp [st_number_input, max_eq_left (le_of_lt hm)]

/-- Witness for C4's amended statement at mass -1. -/
theorem C4_negative_mass_multiplied_through_witness :
    (∀ p ∈ calculate_biomass (-1) DEFAULT_BIOMASS_RATIOS, p.2 < 0) ∧
    st_number_input 0 (-1) = 0 :=
  C4_negative_mass_multiplied_through (-1) (by norm_num)

/-- C7: at input mass 0 every computed quantity is zero, for any ratio
table; the computation is total, not an error. -/
theorem C7_zero_mass_all_zero (R : List (String × ℚ)) (p : String × ℚ)
    (hp : p ∈ calculate_biomass 0 R) : p.2 = 0 := by
  simp only [calculate_biomass] at hp
  rcases List.mem_map.mp hp with ⟨kv, _, hpe⟩
  rw [← hpe]
  simp

/-- Witness for C7 at the single-entry table with ratio 1/2. -/
theorem C7_zero_mass_all_zero_witness :
    (("X", (0 : ℚ)) ∈ calculate_biomass 0 [("X", (1 : ℚ)/2)]) ∧
    (("X", (0 : ℚ)) : String × ℚ).2 = 0 :=
  ⟨by simp [calculate_biomass],
   C7_zero_mass_all_zero [("X", 1/2)] ("X", 0) (by simp [calculate_biomass])⟩

/-- C8: the area computation returns the pair
(area * frond_yield, area * trunk_yield), and at area 100 with the default
yields 14.47 and 74.48 it returns (1447, 7448). -/
theorem C8_computeFromArea_spec (area fy ty : ℚ) (_h : 0 ≤ area) :
    computeFromArea area fy ty = (area * fy, area * ty) ∧
    computeFromArea 100 DEFAULT_FROND_MT_PER_HA DEFAULT_TRUNK_MT_PER_HA
      = (1447, 7448) := by
  refine ⟨rfl, ?_⟩
  norm_num [computeFromArea, DEFAULT_FROND_MT_PER_HA, DEFAULT_TRUNK_MT_PER_HA,
    Prod.ext_iff]

/-- Witness for C8 at area 100 with the default yields. -/
theorem C8_computeFromArea_spec_witness :
    computeFromArea 100 (1447/100) (7448/100)
        = (100 * (1447/100), 100 * (7448/100)) ∧
    computeFromArea 100 DEFAULT_FROND_MT_PER_HA DEFAULT_TRUNK_MT_PER_HA
      = (1447, 7448) :=
  C8_computeFromArea_spec 100 (1447/100) (7448/100) (by norm_num)

/-- Helper: with every slider left at its default initial value, the
constructed custom table equals the default table. -/
theorem buildCustomRatios_default :
    buildCustomRatios (fun _ => none) = DEFAULT_BIOMASS_RATIOS := by
  norm_num [buildCustomRatios, DEFAULT_BIOMASS_RATIOS, st_widget_value,
    min_def, max_def]

/-- C5 counterexample: requesting an Empty Fruit Bunches override of 130
does not set the ratio to 1.30: the slider range is [0, 100], so the stored
ratio is 1, and applying the table to mass 10 yields 10, not 13. -/
theorem C5_override_130_counterexample :
    ((buildCustomRatios (fun s =>
        if s = "Empty Fruit Bunches (EFB)" then some 130 else none)).lookup
      "Empty Fruit Bunches (EFB)" = some 1 ∧ (1 : ℚ) ≠ 13/10) ∧
    ((calculate_biomass 10 (buildCustomRatios (fun s =>
        if s = "Empty Fruit Bunches (EFB)" then some 130 else none))).lookup
      "Empty Fruit Bunches (EFB)" = some 10 ∧ (10 : ℚ) ≠ 13) := by
  refine ⟨⟨?_, by norm_num⟩, ?_, by norm_num⟩ <;>
    norm_num [buildCustomRatios, DEFAULT_BIOMASS_RATIOS, st_widget_value,
      calculate_biomass, List.lookup, min_def, max_def]

/-- C5 amended: for slider percentages within the widget range [0, 100],
each overridden component's ratio is the percentage divided by 100 and each
component left at its default keeps its default ratio; a percentage above
100 (such as 130) is not representable, being clamped by the slider. -/
theorem C5_overrides_within_range (req : String → Option ℚ) (k : String)
    (r p : ℚ) (hk : DEFAULT_BIOMASS_RATIOS.lookup k = some r) :
    (req k = some p → 0 ≤ p → p ≤ 100 →
        (buildCustomRatios req).lookup k = some (p / 100)) ∧
    (req k = none → (buildCustomRatios req).lookup k = some r) := by
  have hb := default_ratio_bounds k r hk
  have hl := lookup_map_value
    (fun s v => st_widget_value 0 100 ((req s).getD (v * 100)) / 100)
    DEFAULT_BIOMASS_RATIOS k r hk
  constructor
  · intro hs h0 h100
    rw [buildCustomRatios, hl]
    simp only [hs, Option.getD_some, st_widget_value]
    rw [min_eq_right h100, max_eq_right h0]
  · intro hn
    rw [buildCustomRatios, hl]
    simp only [hn, Option.getD_none, st_widget_value]
    rw [min_eq_right (by linarith [hb.2]), max_eq_right (by linarith [hb.1]),
      mul_div_assoc]
    norm_num

/-- Witness for C5's amended statement: overriding Empty Fruit Bunches to
50 percent stores ratio 50/100. -/
theorem C5_overrides_within_range_witness :
    (buildCustomRatios (fun s =>
        if s = "Empty Fruit Bunches (EFB)" then some 50 else none)).lookup
      "Empty Fruit Bunches (EFB)" = some (50 / 100) :=
  ((C5_overrides_within_range
      (fun s => if s = "Empty Fruit Bunches (EFB)" then some 50 else none)
      "Empty Fruit Bunches (EFB)" (21/100) 50
      (by norm_num [DEFAULT_BIOMASS_RATIOS, List.lookup])).1)
    (by norm_num) (by norm_num) (by norm_num)

/-- C6 counterexample: an override naming the absent component "Unknown"
does not fail: the construction iterates only over the table's own keys, so
the unknown entry is ignored and the result is the unchanged default
table. -/
theorem C6_unknown_override_counterexample :
    buildCustomRatios (fun s => if s = "Unknown" then some 5 else none)
      = DEFAULT_BIOMASS_RATIOS := by
  rw [← buildCustomRatios_default]
  simp only [buildCustomRatios]
  apply List.map_congr_left
  intro kv hkv
  have hne : kv.1 ≠ "Unknown" := by
    simp [DEFAULT_BIOMASS_RATIOS] at hkv
    rcases hkv with h | h | h | h | h | h <;> rw [h] <;> simp
  simp [hne]

/-- C6 amended: the custom-ratio construction never consults override
entries for names outside the table (two override sources agreeing on the
table's keys give identical results), and its result's keys are exactly the
table's keys; an unknown component is silently ignored, with no
UnknownComponent error in the code. -/
theorem C6_unknown_override_ignored (req req' : String → Option ℚ)
    (h : ∀ k ∈ DEFAULT_BIOMASS_RATIOS.map Prod.fst, req k = req' k) :
    buildCustomRatios req = buildCustomRatios req' ∧
    (buildCustomRatios req).map Prod.fst
      = DEFAULT_BIOMASS_RATIOS.map Prod.fst := by
  constructor
  · simp only [buildCustomRatios]
    apply List.map_congr_left
    intro kv hkv
    rw [h kv.1 (List.mem_map_of_mem Prod.fst hkv)]
  · exact keys_map_value
      (fun s v => st_widget_value 0 100 ((req s).getD (v * 100)) / 100) _

/-- Witness for C6's amended statement: an override containing only the
unknown name behaves exactly like no override at all. -/
theorem C6_unknown_override_ignored_witness :
    buildCustomRatios (fun s => if s = "Unknown" then some 5 else none)
        = buildCustomRatios (fun _ => none) ∧
    (buildCustomRatios (fun s => if s = "Unknown" then some 5 else none)).map
        Prod.fst = DEFAULT_BIOMASS_RATIOS.map Prod.fst :=
  C6_unknown_override_ignored
    (fun s => if s = "Unknown" then some 5 else none) (fun _ => none)
    (by
      intro k hk
      simp [DEFAULT_BIOMASS_RATIOS] at hk
      rcases hk with h | h | h | h | h | h <;> subst h <;> simp)

/-- C9: every ratio in a table constructed through the override path lies
in [0, 1]: each slider percentage is constrained to [0, 100] and divided by
100 before being stored. -/
theorem C9_custom_ratios_unit_interval (req : String → Option ℚ)
    (p : String × ℚ) (hp : p ∈ buildCustomRatios req) :
    0 ≤ p.2 ∧ p.2 ≤ 1 := by
  simp only [buildCustomRatios] at hp
  rcases List.mem_map.mp hp with ⟨kv, _, hpe⟩
  rw [← hpe]
  simp only [st_widget_value]
  constructor
  · exact div_nonneg (le_max_left 0 _) (by norm_num)
  · rw [div_le_one (by norm_num : (0:ℚ) < 100)]
    exact max_le (by norm_num) (min_le_left _ _)

/-- Witness for C9 at the all-default slider state and the first table
entry. -/
theorem C9_custom_ratios_unit_interval_witness :
    (("Empty Fruit Bunches (EFB)", (21 : ℚ)/100)
        ∈ buildCustomRatios (fun _ => none)) ∧
    (0 ≤ ((21 : ℚ)/100) ∧ ((21 : ℚ)/100) ≤ 1) :=
  ⟨by rw [buildCustomRatios_default]; simp [DEFAULT_BIOMASS_RATIOS],
   C9_custom_ratios_unit_interval (fun _ => none)
     ("Empty Fruit Bunches (EFB)", 21/100)
     (by rw [buildCustomRatios_default]; simp [DEFAULT_BIOMASS_RATIOS])⟩

/-- Helper: the state-passing fold of the dict comprehension, generalised
over the result accumulator. -/
theorem calculate_biomass_run_general (m : ℚ) (L acc t : List (String × ℚ)) :
    L.foldl (fun st kv => (st.1 ++ [(kv.1, m * kv.2)], st.2)) (acc, t)
      = (acc ++ calculate_biomass m L, t) := by
  induction L generalizing acc with
  | nil => simp [calculate_biomass]
  | cons a L ih =>
    simp only [List.foldl_cons, calculate_biomass, List.map_cons]
    rw [ih]
    simp [calculate_biomass]

/-- C10: evaluating the dict comprehension of calculate_biomass leaves the
ratio-table argument unchanged — the threaded table state after the call is
exactly the input table (same keys, order and values) — and the result
built is the expected mapping. -/
theorem C10_ratio_table_unchanged (m : ℚ) (R : List (String × ℚ)) :
    (calculate_biomass_run m R).2 = R ∧
    (calculate_biomass_run m R).1 = calculate_biomass m R := by
  have h := calculate_biomass_run_general m R [] R
  rw [calculate_biomass_run, h]
  simp

end Biomass
